import Mathlib

set_option maxRecDepth 4000
set_option maxHeartbeats 1000000

/- Verification of the spaarke prompt-assembly and output-scoring core:
   shallow embedding of the promptflow tools in
   `infrastructure/ai-foundry/prompt-flows` and
   `infrastructure/ai-foundry/evaluation/metrics`. -/

/-! ## Python string primitives -/

/-- Whitespace characters stripped by Python `str.strip()` and matched by the
regex class to the following backslash: `\s` (ASCII range). -/
def isPyWs (c : Char) : Bool :=
  c = ' ' || c = '\t' || c = '\n' || c = '\r' || c = '\x0b' || c = '\x0c'

/-- `str.strip()` on a character list. -/
def pyStripList (cs : List Char) : List Char :=
  ((cs.dropWhile isPyWs).reverse.dropWhile isPyWs).reverse

/-- Python `str.strip()`. -/
def pyStrip (s : String) : String := ⟨pyStripList s.data⟩

/-- Python `str.lower()` (ASCII behaviour). -/
def pyLower (s : String) : String := ⟨s.data.map Char.toLower⟩

/-- Python `sep.join(parts)`. -/
def pyJoin (sep : String) : List String → String
  | [] => ""
  | p :: ps => ps.foldl (fun acc q => acc ++ sep ++ q) p

/-- Occurrence of `needle` as a contiguous sublist of a character list
(Python's `in` on strings, `re` literal search). -/
def listInfix (needle : List Char) : List Char → Bool
  | [] => needle.isPrefixOf []
  | c :: r => needle.isPrefixOf (c :: r) || listInfix needle r

/-- Substring test on strings. -/
def strContains (hay needle : String) : Bool := listInfix needle.data hay.data

/-- Lexicographic (code-point) order on character lists: Python string `<=`. -/
def lexLe : List Char → List Char → Bool
  | [], _ => true
  | _ :: _, [] => false
  | a :: as, b :: bs =>
    if a.toNat < b.toNat then true
    else if b.toNat < a.toNat then false
    else lexLe as bs

/-- Python string `<=`. -/
def tsLe (s t : String) : Bool := lexLe s.data t.data

/-- Python string `<` (strict). -/
def tsLt (s t : String) : Bool := !(tsLe t s)

/-! ## Chat history windowing
(`prompt-flows/analysis-continue/build_continuation_prompt.py`) -/

/-- A chat-history entry: a dict with optional `role`, `content`, `timestamp`
fields, read via `msg.get(...)` in the source. -/
structure ChatMessage where
  role : Option String
  content : Option String
  timestamp : Option String
deriving DecidableEq

/-- The sort key `lambda x: x.get("timestamp", "")`. -/
def tsKey (m : ChatMessage) : String := m.timestamp.getD ""

/-- Stable descending insertion: `m` goes in front of the first entry whose
key is `<=` its own, so entries with equal keys keep their original order.
This is the behaviour of Python's stable `sorted(..., reverse=True)`. -/
def insertDesc (m : ChatMessage) : List ChatMessage → List ChatMessage
  | [] => [m]
  | y :: ys => if tsLe (tsKey y) (tsKey m) then m :: y :: ys else y :: insertDesc m ys

/-- `sorted(chat_history, key=lambda x: x.get("timestamp", ""), reverse=True)`:
stable sort, timestamp descending, missing timestamp treated as `""`. -/
def sortDescByTs : List ChatMessage → List ChatMessage
  | [] => []
  | x :: xs => insertDesc x (sortDescByTs xs)

/-- Python slice `l[:n]`, including the negative-index behaviour:
`l[:-k]` drops the last `k` elements. -/
def pySliceTake (n : Int) (l : List ChatMessage) : List ChatMessage :=
  if 0 ≤ n then l.take n.toNat else l.take ((l.length : Int) + n).toNat

/-- The windowed history of `build_continuation_prompt`: sort by timestamp
descending, slice with `[:max_history_messages]`, then `reverse()`. -/
def historyWindow (ch : List ChatMessage) (maxCount : Int) : List ChatMessage :=
  (pySliceTake maxCount (sortDescByTs ch)).reverse

/-- `role_label = "User" if msg.get("role") == "user" else "Assistant"`. -/
def roleLabel (m : ChatMessage) : String :=
  if m.role = some "user" then "User" else "Assistant"

/-- The two lines appended per windowed message:
`f"{role_label}: {msg.get('content', '')}"` and `""`. -/
def renderMessage (m : ChatMessage) : List String :=
  [roleLabel m ++ ": " ++ m.content.getD "", ""]

/-- The "Conversation History" block of the user prompt: present only when
`chat_history` is truthy and the windowed slice is truthy. -/
def historySection (ch : List ChatMessage) (maxCount : Int) : List String :=
  if ch.isEmpty then []
  else if (historyWindow ch maxCount).isEmpty then []
  else "\n# Conversation History\n" :: ((historyWindow ch maxCount).map renderMessage).flatten

/-- The constant system prompt of `build_continuation_prompt`. -/
def continuationSystemPrompt : String :=
  "You are an AI assistant helping refine and improve a document analysis.\nYou have access to the current working document and conversation history.\nWhen the user requests changes, provide the COMPLETE updated analysis, not just the changes.\nMaintain the same structure and format as the original analysis unless asked to change it.\nBe concise but thorough in your responses."

/-- The fixed closing instruction of the continuation user prompt. -/
def continuationClosing : String :=
  "Please update the analysis based on this feedback. Provide the complete updated analysis, not just the changes."

/-- The `parts` list assembled by `build_continuation_prompt`. -/
def continuationUserParts (wd : String) (ch : List ChatMessage) (um : String)
    (maxCount : Int) : List String :=
  ["# Current Analysis\n", wd, ""] ++ historySection ch maxCount
    ++ ["\n# New Request\n", "User: " ++ um, "", continuationClosing]

/-- `build_continuation_prompt`: returns the (system_prompt, user_prompt) pair,
the user prompt being `"\n".join(parts)`. -/
def build_continuation_prompt (wd : String) (ch : List ChatMessage) (um : String)
    (maxCount : Int) : String × String :=
  (continuationSystemPrompt, pyJoin "\n" (continuationUserParts wd ch um maxCount))

/-- Concrete messages used by witnesses. -/
def wm1 : ChatMessage := ⟨some "user", some "c1", some "a"⟩

def wm2 : ChatMessage := ⟨some "assistant", some "c2", some "b"⟩

def wm3 : ChatMessage := ⟨some "user", some "c3", some "c"⟩

def wm4 : ChatMessage := ⟨some "assistant", some "c4", some "d"⟩

def wm5 : ChatMessage := ⟨some "user", some "c5", some "e"⟩

def exM1 : ChatMessage := ⟨some "user", some "hi", some "2024-01-01"⟩

def exM2 : ChatMessage := ⟨some "assistant", some "ok", some "2024-01-02"⟩

/-! ## Completeness metric (`evaluation/metrics/completeness.py`) -/

/-- `re.search`: the pattern matches starting at some position of the text. -/
def searchAny (p : List Char → Bool) : List Char → Bool
  | [] => p []
  | c :: r => p (c :: r) || searchAny p r

/-- Matches the regex fragment written backslash-s-star followed by the literal
`lbl` at the head of the list (any run of whitespace, then the literal). -/
def wsStarThen (lbl : List Char) : List Char → Bool
  | [] => lbl.isPrefixOf []
  | c :: r => lbl.isPrefixOf (c :: r) || (isPyWs c && wsStarThen lbl r)

/-- Python regex word character (ASCII range). -/
def isWordChar (c : Char) : Bool := c.isAlphanum || c = '_'

def boundaryBefore : Option Char → Bool
  | none => true
  | some c => !(isWordChar c)

def boundaryAfter : List Char → Bool
  | [] => true
  | c :: _ => !(isWordChar c)

/-- Word-boundary search for a label whose first and last characters are word
characters (true of every section label in `ACTION_SECTIONS`): the label
occurs with no adjacent word character on either side. `prev` is the character
just before the current position. -/
def wbSearch (lbl : List Char) : Option Char → List Char → Bool
  | _, [] => false
  | prev, c :: r =>
    (lbl.isPrefixOf (c :: r) && boundaryBefore prev
        && boundaryAfter ((c :: r).drop lbl.length))
      || wbSearch lbl (some c) r

/-- The first pattern of `completeness` as the code actually builds it: in the
f-string `rf'#{1,3}\s*{section}'` the fragment between the braces is the Python
expression `1,3`, so the pattern is the literal `#(1, 3)` — hash, then the
group matching the literal text `1, 3` — followed by optional whitespace and
the label. -/
def codeHeadingAt (lbl : List Char) (cs : List Char) : Bool :=
  "#1, 3".data.isPrefixOf cs && wsStarThen lbl (cs.drop 5)

/-- Modelled from the spec: the intended first pattern — a markdown heading of
depth 1 to 3 (one to three hash characters) followed by optional whitespace and
the label — which the code's f-string fails to produce. -/
def specHeadingAt (lbl : List Char) : List Char → Bool
  | [] => false
  | c :: r =>
    c = '#' && (wsStarThen lbl r ||
      (match r with
        | c2 :: r2 =>
          c2 = '#' && (wsStarThen lbl r2 ||
            (match r2 with
              | c3 :: r3 => c3 = '#' && wsStarThen lbl r3
              | [] => false))
        | [] => false))

/-- A section label counts as found when any of the four patterns matches
(the per-section loop breaks at the first match, so each section contributes
at most once). -/
def sectionFound (lbl : List Char) (txt : List Char) : Bool :=
  searchAny (codeHeadingAt lbl) txt
    || listInfix ("**".data ++ lbl ++ "**".data) txt
    || listInfix (lbl ++ [':']) txt
    || wbSearch lbl none txt

/-- Modelled from the spec: like `sectionFound` but with the intended
depth-1-to-3 heading pattern in place of the code's literal `#(1, 3)` one. -/
def specSectionFound (lbl : List Char) (txt : List Char) : Bool :=
  searchAny (specHeadingAt lbl) txt
    || listInfix ("**".data ++ lbl ++ "**".data) txt
    || listInfix (lbl ++ [':']) txt
    || wbSearch lbl none txt

/-- The `ACTION_SECTIONS` dict. -/
def ACTION_SECTIONS (k : String) : Option (List String) :=
  if k = "summarize" then some ["summary", "key points", "conclusion"]
  else if k = "review_agreement" then
    some ["parties", "terms", "obligations", "risks", "recommendations"]
  else if k = "extract_entities" then some ["entities", "relationships"]
  else if k = "classify_document" then some ["classification", "confidence", "reasoning"]
  else if k = "default" then some ["summary", "analysis", "conclusion"]
  else none

/-- `action_type.lower().replace(" ", "_")`. -/
def normalizeAction (a : String) : String :=
  ⟨(pyLower a).data.map (fun c => if c = ' ' then '_' else c)⟩

/-- `ACTION_SECTIONS.get(normalized, ACTION_SECTIONS["default"])`. -/
def expectedSectionsFor (a : String) : List String :=
  (ACTION_SECTIONS (normalizeAction a)).getD ["summary", "analysis", "conclusion"]

/-- The number of expected sections of `action_type` found in `output`
(the `found_sections` loop counter). -/
def foundSections (output : String) (action_type : String) : Nat :=
  (expectedSectionsFor action_type).countP
    (fun sec => sectionFound sec.data (pyLower output).data)

/-- The `completeness` metric. -/
def completeness (output : String) (action_type : String) : Rat :=
  if pyStrip output = "" then 0
  else if (expectedSectionsFor action_type).length = 0 then 1
  else (foundSections output action_type : Rat) / ((expectedSectionsFor action_type).length : Rat)

/-- Modelled from the spec: the `found_sections` count with the intended
heading pattern. -/
def specFoundSections (output : String) (action_type : String) : Nat :=
  (expectedSectionsFor action_type).countP
    (fun sec => specSectionFound sec.data (pyLower output).data)

/-- Modelled from the spec: `completeness` with the intended heading pattern. -/
def specCompleteness (output : String) (action_type : String) : Rat :=
  if pyStrip output = "" then 0
  else if (expectedSectionsFor action_type).length = 0 then 1
  else (specFoundSections output action_type : Rat) / ((expectedSectionsFor action_type).length : Rat)

/-! ## Format-compliance metric (`evaluation/metrics/format_compliance.py`)

The JSON branch calls Python's `json.loads`; it is embedded below as a
recursive-descent parser over the character list, following the `json`
module's grammar (strict strings, JSON numbers plus the `NaN` / `Infinity`
extensions, objects, arrays). An uncaught Python exception (the `TypeError`
raised by the `in` operator on a scalar) is modelled by `none`. -/

/-- Whitespace skipped by Python's `json` scanner (space, tab, newline, CR). -/
def isJsonWs (c : Char) : Bool := c = ' ' || c = '\t' || c = '\n' || c = '\r'

def skipJsonWs (cs : List Char) : List Char := cs.dropWhile isJsonWs

/-- The opening curly brace character. -/
def lbrace : Char := Char.ofNat 123

/-- The closing curly brace character. -/
def rbrace : Char := Char.ofNat 125

/-- Parsed JSON values. Number lexemes are kept as raw text: the scorer never
reads a numeric value, only the shape of the parsed result. -/
inductive Json where
  | obj : List (String × Json) → Json
  | arr : List Json → Json
  | str : List Char → Json
  | num : List Char → Json
  | bool : Bool → Json
  | null : Json

def hexVal (c : Char) : Option Nat :=
  if c.isDigit then some (c.toNat - 48)
  else if 'a' ≤ c && c ≤ 'f' then some (c.toNat - 87)
  else if 'A' ≤ c && c ≤ 'F' then some (c.toNat - 55)
  else none

def escChar (e : Char) : Option Char :=
  if e = '"' then some '"'
  else if e = '\\' then some '\\'
  else if e = '/' then some '/'
  else if e = 'b' then some '\x08'
  else if e = 'f' then some '\x0c'
  else if e = 'n' then some '\n'
  else if e = 'r' then some '\r'
  else if e = 't' then some '\t'
  else none

/-- Parse the body of a JSON string (after the opening quote); strict mode:
unescaped control characters are rejected. Lone `\uXXXX` escapes decode via
`Char.ofNat`. Returns the content and the remainder after the closing quote. -/
def parseJString : List Char → Option (List Char × List Char)
  | [] => none
  | '"' :: r => some ([], r)
  | '\\' :: r =>
    match r with
    | [] => none
    | e :: r2 =>
      if e = 'u' then
        match r2 with
        | h1 :: h2 :: h3 :: h4 :: r3 =>
          match hexVal h1, hexVal h2, hexVal h3, hexVal h4 with
          | some a, some b, some c, some d =>
            match parseJString r3 with
            | some (s, rest) => some (Char.ofNat (a * 4096 + b * 256 + c * 16 + d) :: s, rest)
            | none => none
          | _, _, _, _ => none
        | _ => none
      else
        match escChar e with
        | some c =>
          match parseJString r2 with
          | some (s, rest) => some (c :: s, rest)
          | none => none
        | none => none
  | c :: r =>
    if c.toNat < 32 then none
    else
      match parseJString r with
      | some (s, rest) => some (c :: s, rest)
      | none => none

/-- Optional fraction part: the regex group backslash-dot-digits, all or
nothing. -/
def parseFrac (cs : List Char) : List Char × List Char :=
  match cs with
  | '.' :: r =>
    if (r.takeWhile Char.isDigit).isEmpty then ([], cs)
    else ('.' :: r.takeWhile Char.isDigit, r.dropWhile Char.isDigit)
  | _ => ([], cs)

/-- Optional exponent part, all or nothing. -/
def parseExp (cs : List Char) : List Char × List Char :=
  match cs with
  | e :: r =>
    if e = 'e' || e = 'E' then
      match r with
      | s :: r2 =>
        if s = '+' || s = '-' then
          if (r2.takeWhile Char.isDigit).isEmpty then ([], cs)
          else (e :: s :: r2.takeWhile Char.isDigit, r2.dropWhile Char.isDigit)
        else if (r.takeWhile Char.isDigit).isEmpty then ([], cs)
        else (e :: r.takeWhile Char.isDigit, r.dropWhile Char.isDigit)
      | [] => ([], cs)
    else ([], cs)
  | [] => ([], cs)

/-- The unsigned part of a JSON number. -/
def parseNumberBody (cs : List Char) : Option (List Char × List Char) :=
  match cs with
  | [] => none
  | c :: r =>
    if c = '0' then
      some ('0' :: (parseFrac r).1 ++ (parseExp (parseFrac r).2).1,
        (parseExp (parseFrac r).2).2)
    else if c.isDigit then
      some ((c :: r).takeWhile Char.isDigit
          ++ (parseFrac ((c :: r).dropWhile Char.isDigit)).1
          ++ (parseExp (parseFrac ((c :: r).dropWhile Char.isDigit)).2).1,
        (parseExp (parseFrac ((c :: r).dropWhile Char.isDigit)).2).2)
    else none

/-- JSON number grammar: optional minus, `0` or a nonzero-led digit run,
optional fraction, optional exponent. Returns the lexeme and the remainder. -/
def parseNumber (cs : List Char) : Option (List Char × List Char) :=
  match cs with
  | '-' :: cs1 =>
    match parseNumberBody cs1 with
    | some (lex, rest) => some ('-' :: lex, rest)
    | none => none
  | _ => parseNumberBody cs

mutual

/-- Recursive-descent parse of one JSON value, with fuel. -/
def parseValue : Nat → List Char → Option (Json × List Char)
  | 0, _ => none
  | fuel + 1, cs =>
    match skipJsonWs cs with
    | [] => none
    | c :: r =>
      if c = lbrace then
        match skipJsonWs r with
        | [] => none
        | c2 :: r2 =>
          if c2 = rbrace then some (Json.obj [], r2)
          else parsePairs fuel (c2 :: r2) []
      else if c = '[' then
        match skipJsonWs r with
        | [] => none
        | c2 :: r2 =>
          if c2 = ']' then some (Json.arr [], r2)
          else parseElems fuel (c2 :: r2) []
      else if c = '"' then
        match parseJString r with
        | some (s, rest) => some (Json.str s, rest)
        | none => none
      else if "true".data.isPrefixOf (c :: r) then some (Json.bool true, (c :: r).drop 4)
      else if "false".data.isPrefixOf (c :: r) then some (Json.bool false, (c :: r).drop 5)
      else if "null".data.isPrefixOf (c :: r) then some (Json.null, (c :: r).drop 4)
      else if "NaN".data.isPrefixOf (c :: r) then some (Json.num "NaN".data, (c :: r).drop 3)
      else if "Infinity".data.isPrefixOf (c :: r) then
        some (Json.num "Infinity".data, (c :: r).drop 8)
      else if "-Infinity".data.isPrefixOf (c :: r) then
        some (Json.num "-Infinity".data, (c :: r).drop 9)
      else
        match parseNumber (c :: r) with
        | some (lex, rest) => some (Json.num lex, rest)
        | none => none

/-- Members of an object (position: at the first character of a key). -/
def parsePairs : Nat → List Char → List (String × Json) → Option (Json × List Char)
  | 0, _, _ => none
  | fuel + 1, cs, acc =>
    match cs with
    | '"' :: r =>
      match parseJString r with
      | none => none
      | some (k, r1) =>
        match skipJsonWs r1 with
        | ':' :: r2 =>
          match parseValue fuel r2 with
          | none => none
          | some (v, r3) =>
            match skipJsonWs r3 with
            | [] => none
            | c4 :: r4 =>
              if c4 = ',' then parsePairs fuel (skipJsonWs r4) (acc ++ [(⟨k⟩, v)])
              else if c4 = rbrace then some (Json.obj (acc ++ [(⟨k⟩, v)]), r4)
              else none
        | _ => none
    | _ => none

/-- Elements of an array (position: at the first character of an element). -/
def parseElems : Nat → List Char → List Json → Option (Json × List Char)
  | 0, _, _ => none
  | fuel + 1, cs, acc =>
    match parseValue fuel cs with
    | none => none
    | some (v, r) =>
      match skipJsonWs r with
      | [] => none
      | c2 :: r2 =>
        if c2 = ',' then parseElems fuel (skipJsonWs r2) (acc ++ [v])
        else if c2 = ']' then some (Json.arr (acc ++ [v]), r2)
        else none

end

/-- `json.loads`: parse one value, then require only whitespace to remain.
The fuel bound `2 * length + 2` dominates the recursion depth, since between
any two fuel decrements at least one character is consumed or a bracket level
is entered, each level consuming its opening character. -/
def pyJsonLoads (s : String) : Option Json :=
  match parseValue (2 * s.data.length + 2) s.data with
  | some (v, rest) => if skipJsonWs rest = [] then some v else none
  | none => none

/-- `expected_fields = ["summary", "key_findings", "details"]`. -/
def expectedFields : List String := ["summary", "key_findings", "details"]

def keysContain (kvs : List (String × Json)) (f : String) : Bool :=
  kvs.any (fun kv => kv.1 = f)

/-- How many expected fields are keys of the parsed object
(`present_fields` for a dict). -/
def fieldCoverageCount (kvs : List (String × Json)) : Nat :=
  expectedFields.countP (fun f => keysContain kvs f)

/-- Python's `f in data` for each possible type of the parsed value: key
lookup for a dict, element equality for a list, substring for a string, and
an uncaught `TypeError` (modelled as `none`) for numbers, booleans and null. -/
def memberCount : Json → Option Nat
  | Json.obj kvs => some (fieldCoverageCount kvs)
  | Json.arr xs =>
    some (expectedFields.countP (fun f =>
      xs.any (fun x =>
        match x with
        | Json.str s => (⟨s⟩ : String) = f
        | _ => false)))
  | Json.str s => some (expectedFields.countP (fun f => listInfix f.data s))
  | Json.num _ => none
  | Json.bool _ => none
  | Json.null => none

/-- Split a character list at the first occurrence of `pat`, returning the
text before it and the remainder after it. -/
def splitAtFirst (pat : List Char) : List Char → Option (List Char × List Char)
  | [] => if pat.isPrefixOf [] then some ([], []) else none
  | c :: r =>
    if pat.isPrefixOf (c :: r) then some ([], (c :: r).drop pat.length)
    else
      match splitAtFirst pat r with
      | some (a, b) => some (c :: a, b)
      | none => none

/-- Repeatedly split at a separator pattern; fuel-driven, each round consumes
at least one character. -/
def splitOnPat (fuel : Nat) (pat : List Char) (cs : List Char) : List (List Char) :=
  match fuel with
  | 0 => [cs]
  | fuel + 1 =>
    match splitAtFirst pat cs with
    | none => [cs]
    | some (a, b) => a :: splitOnPat fuel pat b

/-- Python `s.split(sep)` for a non-empty separator. -/
def pySplit (sep : String) (s : String) : List String :=
  (splitOnPat (s.data.length + 1) sep.data s.data).map (fun l => ⟨l⟩)

/-- The captured group of `re.search` with the fenced-code-block pattern
(triple backtick, `json`, greedy whitespace, lazy group, greedy whitespace,
triple backtick): the text between the first `three-backtick json` marker and
the first closing triple backtick after it, stripped of surrounding
whitespace. `none` when the pattern has no match. -/
def fencedJsonPayload (cs : List Char) : Option (List Char) :=
  match splitAtFirst "```json".data cs with
  | none => none
  | some (_, rest) =>
    match splitAtFirst "```".data rest with
    | none => none
    | some (between, _) => some (pyStripList between)

/-- `_check_json_format`; `none` models the uncaught `TypeError` described in
`memberCount`. -/
def check_json_format (output : String) : Option Rat :=
  match pyJsonLoads (pyStrip output) with
  | some v =>
    match memberCount v with
    | some k => some (1/2 + (1/2) * ((k : Rat) / 3))
    | none => none
  | none =>
    match fencedJsonPayload output.data with
    | some payload => if (pyJsonLoads ⟨payload⟩).isSome then some (7/10) else some (3/10)
    | none => some 0

/-- `.+` matches at this position (at least one non-newline character). -/
def dotPlusAt : List Char → Bool
  | [] => false
  | c :: _ => c != '\n'

/-- Whitespace-star then `.+`, with backtracking: either a non-newline
character here, or consume one whitespace character and continue. -/
def wsStarDotPlus : List Char → Bool
  | [] => false
  | c :: r => (c != '\n') || (isPyWs c && wsStarDotPlus r)

/-- Whitespace-plus then `.+`. Note that the whitespace may contain newlines,
so the "text" may sit on a later line. -/
def wsPlusDotPlus : List Char → Bool
  | [] => false
  | c :: r => isPyWs c && wsStarDotPlus r

/-- After at least one `#`: either whitespace-plus-text, or more hashes. -/
def afterHashes : List Char → Bool
  | [] => false
  | c :: r => wsPlusDotPlus (c :: r) || (c = '#' && afterHashes r)

/-- The heading regex (hash-plus, whitespace-plus, dot-plus) at a position. -/
def headingAt : List Char → Bool
  | [] => false
  | c :: r => c = '#' && afterHashes r

/-- The character class of the list regex: hyphen, star, digit, period. -/
def isBulletChar (c : Char) : Bool := c = '-' || c = '*' || c.isDigit || c = '.'

def afterBullets : List Char → Bool
  | [] => false
  | c :: r => wsPlusDotPlus (c :: r) || (isBulletChar c && afterBullets r)

/-- The list regex (bullet-class-plus, whitespace-plus, dot-plus). -/
def bulletAt : List Char → Bool
  | [] => false
  | c :: r => isBulletChar c && afterBullets r

/-- `re.search` in MULTILINE mode for a pattern anchored at a line start:
try the pattern at position 0 and after every newline. -/
def searchLineStart (p : List Char → Bool) : Bool → List Char → Bool
  | atStart, [] => atStart && p []
  | atStart, c :: r => (atStart && p (c :: r)) || searchLineStart p (c = '\n') r

/-- `re.findall` count for the paragraph pattern (two newlines then `.+`):
non-overlapping matches, resuming after the greedy `.+` of each match.
Fuel-driven; every step consumes at least one character. -/
def countParasAux : Nat → List Char → Nat
  | 0, _ => 0
  | _ + 1, [] => 0
  | _ + 1, [_] => 0
  | fuel + 1, a :: b :: rest =>
    if a = '\n' && b = '\n' && dotPlusAt rest then
      1 + countParasAux fuel (rest.dropWhile (fun c => c != '\n'))
    else countParasAux fuel (b :: rest)

def countParas (cs : List Char) : Nat := countParasAux cs.length cs

/-- The headings check of `_check_markdown_format`. -/
def has_headings (output : String) : Bool := searchLineStart headingAt true output.data

/-- The lists check of `_check_markdown_format`. -/
def has_lists (output : String) : Bool := searchLineStart bulletAt true output.data

/-- `_check_markdown_format`: 0.25 per satisfied check. -/
def check_markdown_format (output : String) : Rat :=
  (if has_headings output then (1 : Rat)/4 else 0)
    + (if 2 ≤ countParas output.data then (1 : Rat)/4 else 0)
    + (if has_lists output then (1 : Rat)/4 else 0)
    + (if 100 ≤ (pyStrip output).length then (1 : Rat)/4 else 0)

/-- `format_compliance`; `none` models an uncaught exception (possible only
in the JSON branch). -/
def format_compliance (output : String) (expected_format : String) : Option Rat :=
  if pyStrip output = "" then some 0
  else if expected_format = "json" then check_json_format output
  else some (check_markdown_format output)

/-- Modelled from the spec: "at least one line begins with one or more `#`
characters followed by text" — the hashes, the optional whitespace and the
text all on the same line. -/
def specHasHeadingLine (s : String) : Bool :=
  (pySplit "\n" s).any (fun l =>
    !(l.data.takeWhile (fun c => c = '#')).isEmpty
      && !((l.data.dropWhile (fun c => c = '#')).dropWhile isPyWs).isEmpty)

/-- Modelled from the spec: "at least two blank-line-separated text blocks
exist". -/
def specHasParagraphs (s : String) : Bool :=
  decide (2 ≤ ((pySplit "\n\n" s).filter (fun b => pyStrip b != "")).length)

/-- Modelled from the spec: "at least one line begins with a bullet marker
followed by text", all on one line. -/
def specHasBulletLine (s : String) : Bool :=
  (pySplit "\n" s).any (fun l =>
    !(l.data.takeWhile isBulletChar).isEmpty
      && !((l.data.dropWhile isBulletChar).dropWhile isPyWs).isEmpty)

/-- Modelled from the spec: the markdown score as claim C5 words it. -/
def specMarkdownScore (s : String) : Rat :=
  (if specHasHeadingLine s then (1 : Rat)/4 else 0)
    + (if specHasParagraphs s then (1 : Rat)/4 else 0)
    + (if specHasBulletLine s then (1 : Rat)/4 else 0)
    + (if 100 ≤ (pyStrip s).length then (1 : Rat)/4 else 0)

/-- A fully structured markdown sample (heading, paragraphs, list, length
over 100), used by the C5 witness. -/
def mdExample : String :=
  "# Title\n\nThis is the introductory paragraph of the analysis document under review.\n\n- first item of the list\n- second item of the list\n\nA closing paragraph that pushes the stripped length of this sample well above one hundred characters."

/-- A fully populated JSON object answer. -/
def jsonFullExample : String :=
  "\x7b\"summary\":\"x\",\"key_findings\":\"y\",\"details\":\"z\"\x7d"

/-- A prose answer carrying a valid fenced JSON block. -/
def fencedExample : String := "text ```json \x7b\"a\": 1\x7d ```"

/-! ## Prompt assembly (`prompt-flows/analysis-execute`) -/

/-- The bullet list built from `skills_instructions`: split the stripped text
into lines, drop blank lines, and render each remaining line, trimmed, after
a hyphen bullet. -/
def bulletLines (skills : String) : List String :=
  ((pySplit "\n" (pyStrip skills)).filter (fun line => pyStrip line != "")).map
    (fun line => "- " ++ pyStrip line)

/-- The structured-JSON output instruction of `build_system_prompt`. -/
def jsonFormatInstruction : String :=
  "Provide your analysis as a valid JSON object with appropriate keys for the analysis type. Include 'summary', 'key_findings', and 'details' fields."

/-- The markdown output instruction of `build_system_prompt`. -/
def markdownFormatInstruction : String :=
  "Provide your analysis in Markdown format with appropriate headings and structure. Use clear, professional language suitable for business communication."

/-- The "Instructions" block: emitted only when `skills_instructions` is
non-empty after stripping. -/
def instructionsSection (skills : String) : List String :=
  if pyStrip skills = "" then []
  else "\n## Instructions\n" :: (bulletLines skills ++ [""])

/-- The "Output Format" block, branching on the requested format. -/
def outputFormatSection (fmt : String) : List String :=
  ["\n## Output Format\n",
    if fmt = "structured_json" then jsonFormatInstruction else markdownFormatInstruction]

/-- The `parts` list of `build_system_prompt`. -/
def build_system_prompt_parts (a s fmt : String) : List String :=
  a :: (instructionsSection s ++ outputFormatSection fmt)

/-- `build_system_prompt`: `"\n".join(parts)`. -/
def build_system_prompt (a s fmt : String) : String :=
  pyJoin "\n" (build_system_prompt_parts a s fmt)

/-- The fixed closing instruction of `build_user_prompt`. -/
def analyzeInstruction : String :=
  "Please analyze the document above according to the instructions provided."

/-- The "Reference Materials" block: emitted only when `knowledge_context` is
non-empty after stripping. -/
def referenceSection (k : String) : List String :=
  if pyStrip k = "" then [] else ["\n# Reference Materials\n", pyStrip k, ""]

/-- The `parts` list of `build_user_prompt`. -/
def build_user_prompt_parts (d k : String) : List String :=
  ["# Document to Analyze\n", d, ""] ++ referenceSection k
    ++ ["\n---\n", analyzeInstruction]

/-- `build_user_prompt`: `"\n".join(parts)`. -/
def build_user_prompt (d k : String) : String :=
  pyJoin "\n" (build_user_prompt_parts d k)

/-! ## Order helper lemmas -/

theorem lexLe_trans : ∀ a b c : List Char,
    lexLe a b = true → lexLe b c = true → lexLe a c = true
  | [], _, _, _, _ => rfl
  | _ :: _, [], _, h, _ => by simp [lexLe] at h
  | _ :: _, _ :: _, [], _, h => by simp [lexLe] at h
  | a :: as, b :: bs, c :: cs, h1, h2 => by
    simp only [lexLe] at h1 h2 ⊢
    rcases Nat.lt_trichotomy a.toNat b.toNat with hab | hab | hab
    · rcases Nat.lt_trichotomy b.toNat c.toNat with hbc | hbc | hbc
      · rw [if_pos (Nat.lt_trans hab hbc)]
      · rw [if_pos (by omega)]
      · rw [if_neg (by omega), if_pos hbc] at h2
        exact Bool.noConfusion h2
    · rw [if_neg (by omega), if_neg (by omega)] at h1
      rcases Nat.lt_trichotomy b.toNat c.toNat with hbc | hbc | hbc
      · rw [if_pos (by omega)]
      · rw [if_neg (by omega), if_neg (by omega)] at h2
        rw [if_neg (by omega), if_neg (by omega)]
        exact lexLe_trans as bs cs h1 h2
      · rw [if_neg (by omega), if_pos hbc] at h2
        exact Bool.noConfusion h2
    · rw [if_neg (by omega), if_pos hab] at h1
      exact Bool.noConfusion h1

theorem lexLe_total : ∀ a b : List Char, lexLe a b = false → lexLe b a = true
  | [], _, h => by simp [lexLe] at h
  | _ :: _, [], _ => rfl
  | a :: as, b :: bs, h => by
    simp only [lexLe] at h ⊢
    rcases Nat.lt_trichotomy a.toNat b.toNat with hab | hab | hab
    · rw [if_pos hab] at h
      exact Bool.noConfusion h
    · rw [if_neg (by omega), if_neg (by omega)] at h
      rw [if_neg (by omega), if_neg (by omega)]
      exact lexLe_total as bs h
    · rw [if_pos hab]

/-! ## Join helper lemmas -/

theorem foldl_join_prefix (sep : String) :
    ∀ (ps : List String) (acc : String),
      ∃ t, List.foldl (fun a q => a ++ sep ++ q) acc ps = acc ++ t
  | [], acc => ⟨"", (String.append_empty acc).symm⟩
  | p :: ps, acc => by
    obtain ⟨t, ht⟩ := foldl_join_prefix sep ps (acc ++ sep ++ p)
    refine ⟨sep ++ p ++ t, ?_⟩
    rw [List.foldl_cons, ht]
    simp [String.append_assoc]

theorem pyJoin_snoc (sep p x : String) (ps : List String) :
    pyJoin sep (p :: (ps ++ [x])) = pyJoin sep (p :: ps) ++ sep ++ x := by
  simp [pyJoin, List.foldl_append]

/-- From `¬ (b ≤ a)` and `¬ (c ≤ b)` conclude `¬ (c ≤ a)` (strict transitivity). -/
theorem tsLe_strict_trans {a b c : String}
    (hab : tsLe b a = false) (hbc : tsLe c b = false) : tsLe c a = false := by
  cases hca : tsLe c a with
  | false => rfl
  | true =>
    have h1 : lexLe a.data b.data = true := lexLe_total _ _ hab
    have h2 : lexLe c.data b.data = true := lexLe_trans _ _ _ hca h1
    rw [tsLe] at hbc
    rw [hbc] at h2
    exact Bool.noConfusion h2

theorem tsLt_iff {s t : String} (h : tsLt s t = true) : tsLe t s = false := by
  rwa [tsLt, Bool.not_eq_true'] at h

/-! ## Claim theorems: history windowing -/

/-- Claim C1: the history window of the continuation prompt is obtained by
sorting the messages by timestamp descending (missing timestamp read as `""`),
taking the first `max_count` entries, and reversing that slice into
chronological order; on five messages with strictly increasing timestamps
`t1 < t2 < t3 < t4 < t5` and `max_count = 2`, the window is exactly the `t4`
message followed by the `t5` message. -/
theorem C1_history_window (ch : List ChatMessage) (n : Nat)
    (m1 m2 m3 m4 m5 : ChatMessage) (t1 t2 t3 t4 t5 : String)
    (e1 : m1.timestamp = some t1) (e2 : m2.timestamp = some t2)
    (e3 : m3.timestamp = some t3) (e4 : m4.timestamp = some t4)
    (e5 : m5.timestamp = some t5)
    (h12 : tsLt t1 t2 = true) (h23 : tsLt t2 t3 = true)
    (h34 : tsLt t3 t4 = true) (h45 : tsLt t4 t5 = true) :
    historyWindow ch (n : Int) = ((sortDescByTs ch).take n).reverse
    ∧ historyWindow [m1, m2, m3, m4, m5] 2 = [m4, m5] := by
  constructor
  · simp [historyWindow, pySliceTake, Int.toNat_natCast]
  · have k1 : tsKey m1 = t1 := by simp [tsKey, e1]
    have k2 : tsKey m2 = t2 := by simp [tsKey, e2]
    have k3 : tsKey m3 = t3 := by simp [tsKey, e3]
    have k4 : tsKey m4 = t4 := by simp [tsKey, e4]
    have k5 : tsKey m5 = t5 := by simp [tsKey, e5]
    have g12 := tsLt_iff h12
    have g23 := tsLt_iff h23
    have g34 := tsLt_iff h34
    have g45 := tsLt_iff h45
    have g13 := tsLe_strict_trans g12 g23
    have g14 := tsLe_strict_trans g13 g34
    have g15 := tsLe_strict_trans g14 g45
    have g24 := tsLe_strict_trans g23 g34
    have g25 := tsLe_strict_trans g24 g45
    have g35 := tsLe_strict_trans g34 g45
    have s5 : insertDesc m5 [] = [m5] := rfl
    have s4 : insertDesc m4 [m5] = [m5, m4] := by
      simp [insertDesc, k4, k5, g45]
    have s3 : insertDesc m3 [m5, m4] = [m5, m4, m3] := by
      simp [insertDesc, k3, k4, k5, g35, g34]
    have s2 : insertDesc m2 [m5, m4, m3] = [m5, m4, m3, m2] := by
      simp [insertDesc, k2, k3, k4, k5, g25, g24, g23]
    have s1 : insertDesc m1 [m5, m4, m3, m2] = [m5, m4, m3, m2, m1] := by
      simp [insertDesc, k1, k2, k3, k4, k5, g15, g14, g13, g12]
    have S : sortDescByTs [m1, m2, m3, m4, m5] = [m5, m4, m3, m2, m1] := by
      simp only [sortDescByTs, s5, s4, s3, s2, s1]
    rw [historyWindow, S]
    rfl

theorem C1_witness :
    historyWindow ([] : List ChatMessage) ((3 : Nat) : Int) = ((sortDescByTs []).take 3).reverse
    ∧ historyWindow [wm1, wm2, wm3, wm4, wm5] 2 = [wm4, wm5] :=
  C1_history_window [] 3 wm1 wm2 wm3 wm4 wm5 "a" "b" "c" "d" "e"
    rfl rfl rfl rfl rfl (by decide) (by decide) (by decide) (by decide)

/-- Claim C2 counterexample: with two messages and `max_count = -1`, the Python
slice `[:-1]` keeps the most recent message, so the window is non-empty and the
"Conversation History" heading is emitted, refuting the claim for
`max_count ≤ 0` at `max_count = -1`. -/
theorem C2_counterexample :
    historyWindow [exM1, exM2] (-1) ≠ []
    ∧ historySection [exM1, exM2] (-1) =
        ["\n# Conversation History\n", "Assistant: ok", ""] :=
  ⟨by decide, by decide⟩

/-- Claim C2 (amended): for every chat_history with `max_count = 0`, and for
every `max_count` when the chat_history is empty, the window is empty and the
user prompt contains no "Conversation History" section at all. -/
theorem C2_empty_window (ch : List ChatMessage) (wd um : String) (n : Int)
    (h : n = 0 ∨ ch = []) :
    historyWindow ch n = []
    ∧ historySection ch n = []
    ∧ continuationUserParts wd ch um n =
        ["# Current Analysis\n", wd, "", "\n# New Request\n", "User: " ++ um, "",
          continuationClosing] := by
  have hw : historyWindow ch n = [] := by
    rcases h with h | h
    · subst h
      simp [historyWindow, pySliceTake]
    · subst h
      simp [historyWindow, pySliceTake, sortDescByTs]
  refine ⟨hw, ?_, ?_⟩
  · simp [historySection, hw]
  · simp [continuationUserParts, historySection, hw]

theorem C2_witness :
    historyWindow [exM1] 0 = []
    ∧ historySection [exM1] 0 = []
    ∧ continuationUserParts "w" [exM1] "u" 0 =
        ["# Current Analysis\n", "w", "", "\n# New Request\n", "User: " ++ "u", "",
          continuationClosing] :=
  C2_empty_window [exM1] "w" "u" 0 (Or.inl rfl)

/-- Claim C10: a windowed message is rendered with label "User" precisely when
its role field is the exact string "user"; any other role (including a missing
one) renders as "Assistant", and a missing content field renders as `""`. -/
theorem C10_role_labels (m : ChatMessage) :
    (roleLabel m = "User" ↔ m.role = some "user")
    ∧ (m.role ≠ some "user" → roleLabel m = "Assistant")
    ∧ renderMessage m = [roleLabel m ++ ": " ++ m.content.getD "", ""]
    ∧ (m.content = none → renderMessage m = [roleLabel m ++ ": ", ""]) := by
  refine ⟨?_, ?_, rfl, ?_⟩
  · by_cases h : m.role = some "user"
    · simp [roleLabel, h]
    · simp only [roleLabel, if_neg h, h, iff_false]
      decide
  · intro h
    simp [roleLabel, h]
  · intro h
    simp [renderMessage, h]

theorem C10_witness :
    roleLabel ⟨some "assistant", none, none⟩ = "Assistant"
    ∧ renderMessage ⟨some "assistant", none, none⟩ =
        [roleLabel ⟨some "assistant", none, none⟩ ++ ": ", ""] :=
  ⟨(C10_role_labels _).2.1 (by decide), (C10_role_labels _).2.2.2 rfl⟩

/-! ## Claim theorems: completeness -/

/-- Claim C3 (code bug): on `"#1, 3summary"` with the default sections, the
code scores `1/3` — the first pattern, whose f-string swallowed the regex
quantifier braces, matches the literal text `#1, 3` followed by the label —
while under the claimed four pattern forms (markdown heading of depth 1-3,
bold, colon, word boundary) no section matches and the score is `0`. -/
theorem C3_fstring_heading_bug :
    completeness "#1, 3summary" "default" = 1/3
    ∧ specCompleteness "#1, 3summary" "default" = 0
    ∧ completeness "#1, 3summary" "default" ≠ specCompleteness "#1, 3summary" "default" := by
  have hc : completeness "#1, 3summary" "default" = 1/3 := by
    rw [completeness, if_neg (by decide), if_neg (by decide),
      show foundSections "#1, 3summary" "default" = 1 from by decide,
      show (expectedSectionsFor "default").length = 3 from by decide]
    norm_num
  have hs : specCompleteness "#1, 3summary" "default" = 0 := by
    rw [specCompleteness, if_neg (by decide), if_neg (by decide),
      show specFoundSections "#1, 3summary" "default" = 0 from by decide,
      show (expectedSectionsFor "default").length = 3 from by decide]
    norm_num
  refine ⟨hc, hs, ?_⟩
  rw [hc, hs]
  norm_num

/-- Claim C6: any action_type whose normalization is not a key of
`ACTION_SECTIONS` is evaluated against the default expected-sections set. -/
theorem C6_unmapped_action_defaults (a : String)
    (h : ACTION_SECTIONS (normalizeAction a) = none) :
    expectedSectionsFor a = ["summary", "analysis", "conclusion"]
    ∧ ∀ out, completeness out a = completeness out "default" := by
  have hd : expectedSectionsFor a = ["summary", "analysis", "conclusion"] := by
    simp [expectedSectionsFor, h]
  have hdef : expectedSectionsFor "default" = ["summary", "analysis", "conclusion"] := by
    decide
  exact ⟨hd, fun out => by simp only [completeness, foundSections, hd, hdef]⟩

/-! ## Claim theorems: format compliance -/

/-- Claim C4: with `expected_format = "json"`, an output whose stripped text
parses as a JSON object scores `0.5 + 0.5 * present/3`; on parse failure the
score is 0.7 when the fenced `json` code block found by the search has a
parseable payload, 0.3 when its payload does not parse, and 0.0 when there is
no such block; the three quoted inputs score exactly 1.0, 0.5 and 0.0. -/
theorem C4_json_scoring (out : String) :
    (∀ kvs, pyJsonLoads (pyStrip out) = some (Json.obj kvs) →
      format_compliance out "json"
        = some (1/2 + (1/2) * ((fieldCoverageCount kvs : Rat) / 3)))
    ∧ (∀ p, pyStrip out ≠ "" → pyJsonLoads (pyStrip out) = none →
        fencedJsonPayload out.data = some p →
        ((pyJsonLoads ⟨p⟩).isSome = true → format_compliance out "json" = some (7/10))
        ∧ ((pyJsonLoads ⟨p⟩).isSome = false → format_compliance out "json" = some (3/10)))
    ∧ (pyJsonLoads (pyStrip out) = none → fencedJsonPayload out.data = none →
        format_compliance out "json" = some 0)
    ∧ format_compliance jsonFullExample "json" = some 1
    ∧ format_compliance "\x7b\x7d" "json" = some (1/2)
    ∧ format_compliance "not json" "json" = some 0 := by
  have hjson : ∀ s : String, pyStrip s ≠ "" →
      format_compliance s "json" = check_json_format s := by
    intro s hs
    rw [format_compliance, if_neg hs, if_pos rfl]
  refine ⟨?_, ?_, ?_, ?_, ?_, ?_⟩
  · intro kvs h
    have hne : pyStrip out ≠ "" := by
      intro he
      rw [he, show pyJsonLoads "" = none from rfl] at h
      exact Option.noConfusion h
    rw [hjson out hne]
    simp only [check_json_format, h, memberCount]
  · intro p hne hnone hfen
    constructor <;> intro hs <;>
      simp only [hjson out hne, check_json_format, hnone, hfen, hs, if_true, if_false,
        Bool.false_eq_true]
  · intro hnone hfen
    by_cases hne : pyStrip out = ""
    · rw [format_compliance, if_pos hne]
    · rw [hjson out hne]
      simp only [check_json_format, hnone, hfen]
  · rw [hjson jsonFullExample (by decide)]
    rw [show check_json_format jsonFullExample
        = some (1/2 + (1/2) * (((3 : Nat) : Rat) / 3)) from by
      simp only [check_json_format,
        show pyJsonLoads (pyStrip jsonFullExample)
            = some (Json.obj [("summary", Json.str "x".data),
              ("key_findings", Json.str "y".data), ("details", Json.str "z".data)]) from rfl,
        memberCount,
        show fieldCoverageCount [("summary", Json.str "x".data),
          ("key_findings", Json.str "y".data), ("details", Json.str "z".data)] = 3 from by
          decide]]
    norm_num
  · rw [hjson "\x7b\x7d" (by decide)]
    rw [show check_json_format "\x7b\x7d" = some (1/2 + (1/2) * (((0 : Nat) : Rat) / 3)) from by
      simp only [check_json_format,
        show pyJsonLoads (pyStrip "\x7b\x7d") = some (Json.obj []) from rfl,
        memberCount, show fieldCoverageCount [] = 0 from rfl]]
    norm_num
  · rw [hjson "not json" (by decide)]
    simp only [check_json_format,
      show pyJsonLoads (pyStrip "not json") = none from rfl,
      show fencedJsonPayload "not json".data = none from rfl]

theorem C4_witness : format_compliance fencedExample "json" = some (7/10) :=
  ((C4_json_scoring fencedExample).2.1 "\x7b\"a\": 1\x7d".data (by decide) rfl rfl).1 rfl

/-- Claim C5 counterexample: on `"#\nx"` the code's heading regex matches —
its whitespace-plus crosses the newline, so the `#` line needs no text of its
own — giving score 0.25, while under the claim's four checks (a line with
hashes followed by text, two blank-line-separated blocks, a bullet line, 100
characters) every check fails and the sum is 0. -/
theorem C5_counterexample :
    format_compliance "#\nx" "markdown" = some (1/4)
    ∧ specMarkdownScore "#\nx" = 0
    ∧ format_compliance "#\nx" "markdown" ≠ some (specMarkdownScore "#\nx") := by
  have h1 : format_compliance "#\nx" "markdown" = some (1/4) := by
    rw [format_compliance, if_neg (by decide), if_neg (by decide), check_markdown_format,
      show has_headings "#\nx" = true from by decide,
      show countParas "#\nx".data = 0 from by decide,
      show has_lists "#\nx" = false from by decide,
      show (pyStrip "#\nx").length = 3 from by decide]
    norm_num
  have h2 : specMarkdownScore "#\nx" = 0 := by
    rw [specMarkdownScore,
      show specHasHeadingLine "#\nx" = false from by decide,
      show specHasParagraphs "#\nx" = false from by decide,
      show specHasBulletLine "#\nx" = false from by decide,
      show (pyStrip "#\nx").length = 3 from by decide]
    norm_num
  refine ⟨h1, h2, ?_⟩
  rw [h1, h2]
  intro hc
  have := Option.some.inj hc
  norm_num at this

/-- Claim C5 (amended): for non-whitespace output and a format other than
"json", the score is the sum of 0.25 for each satisfied check, where the
heading and bullet checks allow the required text to follow whitespace that
may span line breaks, and the paragraph check counts non-overlapping
occurrences of a blank line followed by text, requiring at least two. -/
theorem C5_markdown_score (out fmt : String)
    (h1 : pyStrip out ≠ "") (h2 : fmt ≠ "json") :
    format_compliance out fmt = some (check_markdown_format out)
    ∧ check_markdown_format out =
        (if has_headings out then (1 : Rat)/4 else 0)
          + (if 2 ≤ countParas out.data then (1 : Rat)/4 else 0)
          + (if has_lists out then (1 : Rat)/4 else 0)
          + (if 100 ≤ (pyStrip out).length then (1 : Rat)/4 else 0) :=
  ⟨by rw [format_compliance, if_neg h1, if_neg h2], rfl⟩

theorem C5_witness : format_compliance mdExample "markdown" = some 1 := by
  rw [(C5_markdown_score mdExample "markdown" (by decide) (by decide)).1,
    check_markdown_format,
    show has_headings mdExample = true from by decide,
    show countParas mdExample.data = 3 from by decide,
    show has_lists mdExample = true from by decide,
    show (pyStrip mdExample).length = 237 from by decide]
  norm_num

/-- Claim C9: `format_compliance` is not total on non-empty output with
`expected_format = "json"`: when the stripped output parses as a JSON number,
boolean or null, the `in` membership test raises a `TypeError` that the
`except json.JSONDecodeError` clause does not catch (modelled as `none`);
`"123"` is such an output. -/
theorem C9_scalar_type_error (out : String) :
    format_compliance "123" "json" = none
    ∧ (∀ lex, pyJsonLoads (pyStrip out) = some (Json.num lex) →
        format_compliance out "json" = none)
    ∧ (∀ b, pyJsonLoads (pyStrip out) = some (Json.bool b) →
        format_compliance out "json" = none)
    ∧ (pyJsonLoads (pyStrip out) = some Json.null →
        format_compliance out "json" = none) := by
  have key : ∀ (s : String) (v : Json), pyJsonLoads (pyStrip s) = some v →
      memberCount v = none → format_compliance s "json" = none := by
    intro s v h hm
    have hne : pyStrip s ≠ "" := by
      intro he
      rw [he, show pyJsonLoads "" = none from rfl] at h
      exact Option.noConfusion h
    rw [format_compliance, if_neg hne, if_pos rfl]
    simp only [check_json_format, h, hm]
  refine ⟨?_, ?_, ?_, ?_⟩
  · exact key "123" (Json.num "123".data) rfl rfl
  · intro lex h
    exact key out (Json.num lex) h rfl
  · intro b h
    exact key out (Json.bool b) h rfl
  · intro h
    exact key out Json.null h rfl

theorem C9_witness : format_compliance "123" "json" = none :=
  (C9_scalar_type_error "123").2.1 "123".data rfl

theorem C6_witness :
    expectedSectionsFor "Unknown Action" = ["summary", "analysis", "conclusion"]
    ∧ completeness "a summary with a conclusion" "Unknown Action"
      = completeness "a summary with a conclusion" "default" :=
  ⟨(C6_unmapped_action_defaults "Unknown Action" (by decide)).1,
    (C6_unmapped_action_defaults "Unknown Action" (by decide)).2 _⟩

/-! ## Claim theorems: prompt assembly -/

/-- Claim C7: `build_system_prompt` begins with the action system prompt
verbatim; it contains an "Instructions" section with one bullet per non-blank
trimmed line of `skills_instructions` exactly when that input is non-empty
after trimming, and no Instructions heading otherwise; its "Output Format"
section carries the JSON instruction naming `summary`, `key_findings` and
`details` when the format is `structured_json`, and the fixed markdown
instruction otherwise. -/
theorem C7_system_prompt (a s f : String) :
    (∃ t, build_system_prompt a s f = a ++ t)
    ∧ (pyStrip s ≠ "" →
        build_system_prompt_parts a s f
          = a :: (("\n## Instructions\n" :: (bulletLines s ++ [""]))
              ++ outputFormatSection f))
    ∧ (pyStrip s = "" → build_system_prompt_parts a s f = a :: outputFormatSection f)
    ∧ (f = "structured_json" →
        outputFormatSection f = ["\n## Output Format\n", jsonFormatInstruction]
        ∧ strContains jsonFormatInstruction "summary" = true
        ∧ strContains jsonFormatInstruction "key_findings" = true
        ∧ strContains jsonFormatInstruction "details" = true)
    ∧ (f ≠ "structured_json" →
        outputFormatSection f = ["\n## Output Format\n", markdownFormatInstruction]) := by
  refine ⟨?_, ?_, ?_, ?_, ?_⟩
  · obtain ⟨t, ht⟩ :=
      foldl_join_prefix "\n" (instructionsSection s ++ outputFormatSection f) a
    refine ⟨t, ?_⟩
    simp only [build_system_prompt, build_system_prompt_parts, pyJoin]
    exact ht
  · intro h
    simp [build_system_prompt_parts, instructionsSection, h]
  · intro h
    simp [build_system_prompt_parts, instructionsSection, h]
  · intro h
    subst h
    exact ⟨rfl, by decide, by decide, by decide⟩
  · intro h
    simp [outputFormatSection, h]

theorem C7_witness :
    (∃ t, build_system_prompt "Base prompt." "one\ntwo" "structured_json"
      = "Base prompt." ++ t)
    ∧ build_system_prompt_parts "Base prompt." "one\ntwo" "structured_json"
        = "Base prompt." :: (("\n## Instructions\n" :: (bulletLines "one\ntwo" ++ [""]))
            ++ outputFormatSection "structured_json")
    ∧ strContains jsonFormatInstruction "key_findings" = true :=
  ⟨(C7_system_prompt "Base prompt." "one\ntwo" "structured_json").1,
    (C7_system_prompt "Base prompt." "one\ntwo" "structured_json").2.1 (by decide),
    ((C7_system_prompt "Base prompt." "one\ntwo" "structured_json").2.2.2.1 rfl).2.2.1⟩

/-- Claim C8: `build_user_prompt` carries a "Document to Analyze" section with
the document text verbatim, a "Reference Materials" section (with the trimmed
context) exactly when the context is non-empty after trimming, and ends with
the fixed instruction line; with empty context the output contains
"Document to Analyze" and the document but no "Reference Materials" heading. -/
theorem C8_user_prompt (d k : String) :
    build_user_prompt_parts d k
      = ["# Document to Analyze\n", d, ""] ++ referenceSection k
          ++ ["\n---\n", analyzeInstruction]
    ∧ (referenceSection k ≠ [] ↔ pyStrip k ≠ "")
    ∧ (pyStrip k ≠ "" → referenceSection k = ["\n# Reference Materials\n", pyStrip k, ""])
    ∧ (∃ t, build_user_prompt d k = t ++ analyzeInstruction)
    ∧ (k = "" → build_user_prompt_parts d k
        = ["# Document to Analyze\n", d, "", "\n---\n", analyzeInstruction])
    ∧ strContains (build_user_prompt "D" "") "Document to Analyze" = true
    ∧ strContains (build_user_prompt "D" "") "D" = true
    ∧ strContains (build_user_prompt "D" "") "Reference Materials" = false := by
  refine ⟨rfl, ?_, ?_, ?_, ?_, by decide, by decide, by decide⟩
  · by_cases h : pyStrip k = "" <;> simp [referenceSection, h]
  · intro h
    simp [referenceSection, h]
  · have hsh : build_user_prompt_parts d k
        = "# Document to Analyze\n"
            :: (([d, ""] ++ referenceSection k ++ ["\n---\n"]) ++ [analyzeInstruction]) := by
      simp [build_user_prompt_parts, List.append_assoc]
    refine ⟨pyJoin "\n"
      ("# Document to Analyze\n" :: ([d, ""] ++ referenceSection k ++ ["\n---\n"])) ++ "\n", ?_⟩
    rw [build_user_prompt, hsh, pyJoin_snoc]
  · intro h
    subst h
    simp [build_user_prompt_parts, referenceSection, show pyStrip "" = "" from rfl]

theorem C8_witness :
    referenceSection "  ctx  " = ["\n# Reference Materials\n", pyStrip "  ctx  ", ""]
    ∧ (∃ t, build_user_prompt "D" "  ctx  " = t ++ analyzeInstruction) :=
  ⟨(C8_user_prompt "D" "  ctx  ").2.2.1 (by decide),
    (C8_user_prompt "D" "  ctx  ").2.2.2.1⟩
